import Mathlib

/-!
Verification of the Cargo lock-file reconciliation engine
(`lib/modules/manager/cargo/artifacts.ts`).

The engine is shallowly embedded: the pure data flow of
`updateArtifactsImpl` is translated into total Lean functions, and every
external effect (file-system reads and writes, process execution, the
lock-content version extractor) is represented by an explicit environment
oracle.  Each reconciliation attempt `i` consults `Env.attempts i`, which
records what the file system and the resolver would do on that attempt, so
that recursion over a mutating working tree is modelled faithfully.
-/

namespace CargoArtifacts

/-- `TEMPORARY_ERROR`.  Modelled from the spec: the fatal infrastructure
sentinel message imported from `constants/error-messages`, which is not in
the sources; the engine only ever compares a failure message against it, so
its exact text is irrelevant to every claim. -/
def TEMPORARY_ERROR : String := "temporary-error"

/-- `CrateDatasource.id`.  Modelled from the spec: the identifier of the
primary registry datasource (`datasource/crate`, not in the sources); the
engine only compares `dep.datasource` against it. -/
def crateDatasourceId : String := "crate"

/-- The single-quote character, kept out of string literals. -/
def squote : String := String.singleton (Char.ofNat 39)

/-- Characters the shell quoter leaves untouched. -/
def shlexSafeChar (c : Char) : Bool :=
  c.isAlphanum || c == '_' || c == '@' || c == '%' || c == '+' || c == '=' ||
    c == ':' || c == ',' || c == '.' || c == '/' || c == '-'

/-- Modelled from the spec: the external `shlex.quote` helper (a library
dependency, not in the sources); POSIX single-quoting of unsafe strings.
No claim depends on its internals — commands are compared as built by the
same quoter. -/
def quote (s : String) : String :=
  if s == "" then squote ++ squote
  else if s.all shlexSafeChar then s
  else squote ++ s.replace squote (squote ++ "\"" ++ squote ++ "\"" ++ squote) ++ squote

/-- JavaScript template-literal coercion of a possibly-absent string
(`undefined` interpolates as the text "undefined"). -/
def jsStr : Option String → String
  | some s => s
  | none => "undefined"

/-- JavaScript truthiness of a `string | null | undefined` value: absent and
empty are falsy. -/
def truthyStr : Option String → Bool
  | none => false
  | some s => s != ""

/-- Modelled from the spec: `coerceArray` from `util/array` (not in the
sources) — returns the array, or the empty array when absent. -/
def coerceArray (xs : Option (List String)) : List String := xs.getD []

/-- Character-list prefix test (needle first). -/
def startsWithChars : List Char → List Char → Bool
  | [], _ => true
  | _ :: _, [] => false
  | a :: as, b :: bs => a == b && startsWithChars as bs

/-- Character-list substring test (needle first). -/
def listContainsSub (needle : List Char) : List Char → Bool
  | [] => needle.isEmpty
  | b :: bs => startsWithChars needle (b :: bs) || listContainsSub needle bs

/-- Unanchored substring test, the semantics of an unanchored literal
regular expression applied with `.test`. -/
def strContains (haystack needle : String) : Bool :=
  listContainsSub needle.toList haystack.toList

/-- The recoverable-conflict signature tested against the failure stderr
(`regEx(/error: package ID specification/)`). -/
def packageIdSpecSignature : String := "error: package ID specification"

/-- `regEx(/error: package ID specification/).test(err.stderr)`: an absent
stderr coerces to the text "undefined", which does not match, so it is
modelled as `false`. -/
def hasPackageIdSig : Option String → Bool
  | none => false
  | some s => strContains s packageIdSpecSignature

/-- One requested dependency change (`Upgrade` from `../types`); only the
fields the engine reads are modelled, each optional exactly as in the
TypeScript type. -/
structure Upgrade where
  depName : Option String
  packageName : Option String
  lockedVersion : Option String
  newVersion : Option String
  datasource : Option String
deriving Repr, DecidableEq

/-- The slice of the caller configuration the engine reads:
`config.isLockFileMaintenance` (falsy when absent) and
`config.constraints?.rust`. -/
structure CargoConfig where
  isLockFileMaintenance : Bool
  rustConstraint : Option String
deriving Repr, DecidableEq

/-- The `UpdateArtifact` input of `updateArtifactsImpl`. -/
structure UpdateArtifact where
  packageFileName : String
  updatedDeps : List Upgrade
  newPackageFileContent : String
  config : CargoConfig
deriving Repr, DecidableEq

/-- A thrown JavaScript error as the catch block observes it: a `message`
and an optional `stderr` (present on process-execution failures). -/
structure Err where
  message : String
  stderr : Option String
deriving Repr, DecidableEq

/-- The observable outcome of one top-level `updateArtifactsImpl` call:
a rethrown error, the `null` no-op, a lock-file addition
`[{file: {type, path, contents}}]`, or an artifact error
`[{artifactError: {lockFile, stderr}}]`. -/
inductive UpdateResult where
  | thrown (err : Err)
  | null
  | addition (path : String) (contents : Option String)
  | artifactError (lockFile : String) (stderr : String)
deriving Repr, DecidableEq

/-- The externally visible effects of a call: manifest writes
`(path, content)` performed by `writeLocalFile`, and resolver invocations,
each an ordered command list handed to `exec`. -/
structure Trace where
  writes : List (String × String)
  execs : List (List String)
deriving Repr, DecidableEq

def Trace.empty : Trace := ⟨[], []⟩

def Trace.append (t u : Trace) : Trace := ⟨t.writes ++ u.writes, t.execs ++ u.execs⟩

/-- The command string built by `cargoUpdate`: a full update, with
`--workspace` appended exactly when this is not lock-file maintenance. -/
def cargoUpdateCmd (manifestPath : String) (isLockFileMaintenance : Bool) : String :=
  let cmd := "cargo update --config net.git-fetch-with-cli=true --manifest-path " ++
    quote manifestPath
  if !isLockFileMaintenance then cmd ++ " --workspace" else cmd

/-- One precise-pin command built by `cargoUpdatePrecise` for a single
upgrade: `--package name@lockedVersion --precise newVersion`. -/
def cargoPreciseDepCmd (manifestPath : String) (dep : Upgrade) : String :=
  "cargo update --config net.git-fetch-with-cli=true --manifest-path " ++
    quote manifestPath ++
    " --package " ++ quote (jsStr dep.packageName ++ "@" ++ jsStr dep.lockedVersion) ++
    " --precise " ++ quote (jsStr dep.newVersion)

/-- The command list built by `cargoUpdatePrecise`: one workspace-wide
update followed by one precise pin per upgrade, in request order. -/
def cargoUpdatePreciseCmds (manifestPath : String) (updatedDeps : List Upgrade) : List String :=
  ("cargo update --config net.git-fetch-with-cli=true --manifest-path " ++
      quote manifestPath ++ " --workspace")
    :: updatedDeps.map (cargoPreciseDepCmd manifestPath)

/-- `dep.datasource !== CrateDatasource.id` (an absent datasource is not
the crate datasource). -/
def isNonCrateDep (dep : Upgrade) : Bool :=
  dep.datasource != some crateDatasourceId

/-- `!dep.lockedVersion && dep.datasource === CrateDatasource.id`. -/
def isCrateDepWithoutLockedVersion (dep : Upgrade) : Bool :=
  !truthyStr dep.lockedVersion && dep.datasource == some crateDatasourceId

/-- The invocation planner, lines 121-150 of `artifacts.ts`: maintenance
mode runs a single full update; a non-crate dependency or a crate
dependency without a locked version forces a single full workspace update;
otherwise every dependency is pinned precisely. -/
def planCommands (packageFileName : String) (updatedDeps : List Upgrade)
    (isLockFileMaintenance : Bool) : List String :=
  if isLockFileMaintenance then
    [cargoUpdateCmd packageFileName true]
  else if (updatedDeps.find? isNonCrateDep).isSome ||
      (updatedDeps.find? isCrateDepWithoutLockedVersion).isSome then
    [cargoUpdateCmd packageFileName false]
  else
    cargoUpdatePreciseCmds packageFileName updatedDeps

/-- `versions?.get(dep.packageName!)`: looking a possibly-absent key up in
a possibly-absent map. -/
def mapGet (versions : Option (List (String × List String))) (key : Option String) :
    Option (List String) :=
  match versions, key with
  | some m, some k => m.lookup k
  | _, _ => none

/-- `xs.includes(v)` where `v` is a possibly-absent string: `undefined` is
never an element of a string array. -/
def includesOpt (xs : List String) (v : Option String) : Bool :=
  match v with
  | some s => xs.contains s
  | none => false

/-- The conflict-recovery filter, lines 185-190: keep exactly the upgrades
whose target version is not already among the versions extracted for their
package from the re-read lock file. -/
def filterSatisfiedDeps (versions : Option (List (String × List String)))
    (updatedDeps : List Upgrade) : List Upgrade :=
  updatedDeps.filter
    (fun dep => !(includesOpt (coerceArray (mapGet versions dep.packageName)) dep.newVersion))

/-- What one attempt observes of the outside world: the located lock file,
its initial content, whether the manifest write throws, whether `exec`
throws, the lock content read after a successful invocation, and the lock
content re-read (as utf8) inside the catch block. -/
structure AttemptEnv where
  lockFileName : Option String
  lockContent0 : Option String
  writeError : Option Err
  execError : Option Err
  lockContent1 : Option String
  lockContent2 : Option String
deriving Repr, DecidableEq

/-- The full environment oracle: one `AttemptEnv` per attempt index, plus
the lock-content version extractor.  The extractor
(`extractLockFileContentVersions` from `./locked-version`, not in the
sources) is modelled from the spec: a map from package coordinate to the
ordered sequence of locked version strings, or absent when extraction
fails. -/
structure Env where
  attempts : Nat → AttemptEnv
  extract : String → Option (List (String × List String))

/-- The outcome of a single attempt before the recursion decision is
applied: either a final result, or a request to re-enter reconciliation
with a strictly narrowed upgrade set (carrying the data the budget-exhausted
error needs). -/
inductive StepOut where
  | done (r : UpdateResult)
  | recurse (newDeps : List Upgrade) (lockFileName : String) (errMessage : String)
deriving Repr, DecidableEq

/-- Lines 179-206 without the budget conjunct: recovery applies when the
re-read lock content is truthy and the stderr matches the package-ID
signature, and the filtered set strictly shrank.  (The source also conjoins
`recursionLimit > 0`; that test is performed at the recursion site in
`updateArtifactsImpl`, which leaves every result unchanged because the
remaining conditions are pure.) -/
def recoveryDecision (extract : String → Option (List (String × List String)))
    (lockContent2 : Option String) (updatedDeps : List Upgrade) (err : Err) :
    Option (List Upgrade) :=
  match lockContent2 with
  | none => none
  | some c2 =>
    if c2 ≠ "" ∧ hasPackageIdSig err.stderr = true then
      let newUpdatedDeps := filterSatisfiedDeps (extract c2) updatedDeps
      if newUpdatedDeps.length < updatedDeps.length then some newUpdatedDeps else none
    else none

/-- The catch block, lines 168-218: the fatal sentinel is rethrown
verbatim; a recoverable conflict requests recursion; anything else becomes
an artifact error carrying the lock file path and the failure message. -/
def classifyFailure (extract : String → Option (List (String × List String)))
    (lockFileName : String) (lockContent2 : Option String)
    (updatedDeps : List Upgrade) (err : Err) : StepOut :=
  if err.message = TEMPORARY_ERROR then .done (.thrown err)
  else
    match recoveryDecision extract lockContent2 updatedDeps err with
    | some newUpdatedDeps => .recurse newUpdatedDeps lockFileName err.message
    | none => .done (.artifactError lockFileName err.message)

/-- One reconciliation attempt, lines 86-218 of `updateArtifactsImpl`
minus the recursive call: locate the lock file (absent or falsy content
short-circuits to `null`); a targeted request with no upgrades left
returns the existing lock content as an addition; otherwise write the
manifest, run the planned commands, and either diff the lock file on
success or classify the failure. -/
def attemptStep (extract : String → Option (List (String × List String)))
    (a : AttemptEnv) (ua : UpdateArtifact) : StepOut × Trace :=
  match a.lockFileName with
  | none => (.done .null, Trace.empty)
  | some lockFileName =>
    match a.lockContent0 with
    | none => (.done .null, Trace.empty)
    | some existingLockFileContent =>
      if existingLockFileContent = "" then (.done .null, Trace.empty)
      else if ua.config.isLockFileMaintenance = false ∧ ua.updatedDeps = [] then
        (.done (.addition lockFileName (some existingLockFileContent)), Trace.empty)
      else
        match a.writeError with
        | some err =>
          (classifyFailure extract lockFileName a.lockContent2 ua.updatedDeps err,
            ⟨[(ua.packageFileName, ua.newPackageFileContent)], []⟩)
        | none =>
          let plan := planCommands ua.packageFileName ua.updatedDeps
            ua.config.isLockFileMaintenance
          let t : Trace := ⟨[(ua.packageFileName, ua.newPackageFileContent)], [plan]⟩
          match a.execError with
          | some err =>
            (classifyFailure extract lockFileName a.lockContent2 ua.updatedDeps err, t)
          | none =>
            if a.lockContent1 = some existingLockFileContent then (.done .null, t)
            else (.done (.addition lockFileName a.lockContent1), t)

/-- The recursive body of `updateArtifactsImpl`, structurally recursive on
the attempt budget: run one attempt; on a recoverable conflict, recurse
with the filtered set and a budget decremented by one while the budget
lasts, otherwise report the artifact error.  The trace accumulates the
effects of every attempt. -/
def updateArtifactsImplGo (env : Env) : Nat → Nat → UpdateArtifact → UpdateResult × Trace
  | 0, attempt, ua =>
    match attemptStep env.extract (env.attempts attempt) ua with
    | (.done r, t) => (r, t)
    | (.recurse _ lockFileName errMessage, t) =>
      (.artifactError lockFileName errMessage, t)
  | k + 1, attempt, ua =>
    match attemptStep env.extract (env.attempts attempt) ua with
    | (.done r, t) => (r, t)
    | (.recurse newUpdatedDeps _ _, t) =>
      let r := updateArtifactsImplGo env k (attempt + 1)
        { ua with updatedDeps := newUpdatedDeps }
      (r.1, t.append r.2)

/-- `updateArtifactsImpl` with its source argument order: the environment,
the attempt index (0 at the top level), the update artifact, and the
remaining recursion budget. -/
def updateArtifactsImpl (env : Env) (attempt : Nat) (ua : UpdateArtifact)
    (recursionLimit : Nat) : UpdateResult × Trace :=
  updateArtifactsImplGo env recursionLimit attempt ua

/-- The exported entry point `updateArtifacts`, with the default attempt
budget of 10. -/
def updateArtifacts (env : Env) (ua : UpdateArtifact) : UpdateResult × Trace :=
  updateArtifactsImpl env 0 ua 10

/-- A concrete crate upgrade with a locked version, for witnesses. -/
def exDep : Upgrade := ⟨some "foo", some "foo", some "1.0.0", some "1.1.0", some "crate"⟩

/-- A second concrete crate upgrade, for witnesses. -/
def exDepBar : Upgrade := ⟨some "bar", some "bar", some "2.0.0", some "2.1.0", some "crate"⟩

/-- A concrete targeted (non-maintenance) request with one upgrade. -/
def exUa : UpdateArtifact := ⟨"Cargo.toml", [exDep], "manifest-v2", ⟨false, none⟩⟩

/-- A concrete targeted request with two upgrades. -/
def exUa2 : UpdateArtifact := ⟨"Cargo.toml", [exDep, exDepBar], "manifest-v2", ⟨false, none⟩⟩

/-- A resolver failure whose stderr matches the recoverable signature. -/
def exErrSig : Err :=
  ⟨"update failed", some "error: package ID specification foo@1.0.0 did not match"⟩

/-- A resolver failure whose stderr does not match the signature. -/
def exErrPlain : Err := ⟨"update failed", some "some other failure"⟩

/-- A failed manifest write (no stderr). -/
def exErrWrite : Err := ⟨"write failed", none⟩

/-- A failure carrying the fatal sentinel message. -/
def exErrFatal : Err := ⟨TEMPORARY_ERROR, some "network reset"⟩

/-- Adversarial environment: every attempt fails with the recoverable
signature and the lock file never changes; extraction yields nothing. -/
def envC1 : Env :=
  { attempts := fun _ => ⟨some "Cargo.lock", some "lockv1", none, some exErrSig, none,
      some "lockv1"⟩,
    extract := fun _ => none }

/-- Environment whose first attempt fails recoverably while the re-read
lock file already satisfies `foo`; later attempts succeed. -/
def envC2 : Env :=
  { attempts := fun i =>
      if i = 0 then
        ⟨some "Cargo.lock", some "lockv1", none, some exErrSig, none, some "lockv2"⟩
      else
        ⟨some "Cargo.lock", some "lockv2", none, none, some "lockv3", none⟩,
    extract := fun s => if s = "lockv2" then some [("foo", ["1.1.0"])] else none }

/-- Environment whose attempt fails with a non-matching diagnostic. -/
def envC3 : Env :=
  { attempts := fun _ => ⟨some "Cargo.lock", some "lockv1", none, some exErrPlain, none,
      some "lockv1"⟩,
    extract := fun _ => none }

/-- Environment whose attempt fails with the fatal sentinel. -/
def envC4 : Env :=
  { attempts := fun _ => ⟨some "Cargo.lock", some "lockv1", none, some exErrFatal, none,
      some "lockv1"⟩,
    extract := fun _ => none }

/-- Environment where the resolver succeeds and leaves the lock file
byte-identical. -/
def envC6 : Env :=
  { attempts := fun _ => ⟨some "Cargo.lock", some "lockv1", none, none, some "lockv1", none⟩,
    extract := fun _ => none }

/-- Environment with no discoverable lock file. -/
def envC7 : Env :=
  { attempts := fun _ => ⟨none, none, none, none, none, none⟩,
    extract := fun _ => none }

/-- Environment whose manifest write fails. -/
def envC8 : Env :=
  { attempts := fun _ => ⟨some "Cargo.lock", some "lockv1", some exErrWrite, none, none, none⟩,
    extract := fun _ => none }

theorem Trace.append_mk (w1 w2 : List (String × String)) (e1 e2 : List (List String)) :
    Trace.append ⟨w1, e1⟩ ⟨w2, e2⟩ = ⟨w1 ++ w2, e1 ++ e2⟩ := rfl

theorem recoveryDecision_not_applicable
    (e : String → Option (List (String × List String)))
    (c2 : Option String) (deps : List Upgrade) (err : Err)
    (h : c2 = none ∨ c2 = some "" ∨ hasPackageIdSig err.stderr = false) :
    recoveryDecision e c2 deps err = none := by
  unfold recoveryDecision
  rcases h with h | h | h
  · rw [h]
  · rw [h]; simp
  · cases c2 with
    | none => rfl
    | some s => simp [h]

theorem recoveryDecision_no_shrink
    (e : String → Option (List (String × List String)))
    (s : String) (deps : List Upgrade) (err : Err)
    (hs : s ≠ "") (hsig : hasPackageIdSig err.stderr = true)
    (hlen : (filterSatisfiedDeps (e s) deps).length = deps.length) :
    recoveryDecision e (some s) deps err = none := by
  unfold recoveryDecision
  simp [hs, hsig, hlen]

theorem recoveryDecision_shrink
    (e : String → Option (List (String × List String)))
    (s : String) (deps : List Upgrade) (err : Err)
    (hs : s ≠ "") (hsig : hasPackageIdSig err.stderr = true)
    (hlt : (filterSatisfiedDeps (e s) deps).length < deps.length) :
    recoveryDecision e (some s) deps err = some (filterSatisfiedDeps (e s) deps) := by
  unfold recoveryDecision
  simp [hs, hsig, hlt]

theorem recoveryDecision_some_spec
    {e : String → Option (List (String × List String))}
    {c2 : Option String} {deps : List Upgrade} {err : Err} {nd : List Upgrade}
    (h : recoveryDecision e c2 deps err = some nd) :
    nd.length < deps.length ∧ nd.Sublist deps := by
  unfold recoveryDecision at h
  cases c2 with
  | none => cases h
  | some s =>
    have h' : (if s ≠ "" ∧ hasPackageIdSig err.stderr = true then
        (if (filterSatisfiedDeps (e s) deps).length < deps.length
          then some (filterSatisfiedDeps (e s) deps) else none)
        else none) = some nd := h
    by_cases hc : s ≠ "" ∧ hasPackageIdSig err.stderr = true
    · rw [if_pos hc] at h'
      by_cases hlt : (filterSatisfiedDeps (e s) deps).length < deps.length
      · rw [if_pos hlt] at h'
        injection h' with h'
        subst h'
        exact ⟨hlt, List.filter_sublist deps⟩
      · rw [if_neg hlt] at h'; cases h'
    · rw [if_neg hc] at h'; cases h'

theorem classifyFailure_fatal
    (e : String → Option (List (String × List String)))
    (L : String) (c2 : Option String) (deps : List Upgrade) (err : Err)
    (h : err.message = TEMPORARY_ERROR) :
    classifyFailure e L c2 deps err = .done (.thrown err) := by
  unfold classifyFailure
  rw [if_pos h]

theorem classifyFailure_recoverable
    (e : String → Option (List (String × List String)))
    (L : String) (c2 : Option String) (deps : List Upgrade) (err : Err)
    (nd : List Upgrade)
    (h1 : err.message ≠ TEMPORARY_ERROR)
    (h2 : recoveryDecision e c2 deps err = some nd) :
    classifyFailure e L c2 deps err = .recurse nd L err.message := by
  unfold classifyFailure
  rw [if_neg h1, h2]

theorem classifyFailure_terminal
    (e : String → Option (List (String × List String)))
    (L : String) (c2 : Option String) (deps : List Upgrade) (err : Err)
    (h1 : err.message ≠ TEMPORARY_ERROR)
    (h2 : recoveryDecision e c2 deps err = none) :
    classifyFailure e L c2 deps err = .done (.artifactError L err.message) := by
  unfold classifyFailure
  rw [if_neg h1, h2]

theorem attemptStep_noLockFile
    (e : String → Option (List (String × List String))) (a : AttemptEnv)
    (ua : UpdateArtifact) (h : a.lockFileName = none ∨ a.lockContent0 = none) :
    attemptStep e a ua = (.done .null, Trace.empty) := by
  obtain ⟨L, c0, w, x, c1, c2⟩ := a
  rcases h with h | h <;> simp only at h <;> subst h
  · rfl
  · cases L <;> rfl

theorem attemptStep_noDepsLeft
    (e : String → Option (List (String × List String)))
    (L c0 : String) (w x : Option Err) (c1 c2 : Option String)
    (ua : UpdateArtifact) (hne : c0 ≠ "")
    (hm : ua.config.isLockFileMaintenance = false) (hd : ua.updatedDeps = []) :
    attemptStep e ⟨some L, some c0, w, x, c1, c2⟩ ua =
      (.done (.addition L (some c0)), Trace.empty) := by
  unfold attemptStep
  simp [hne, hm, hd]

theorem attemptStep_writeFailed
    (e : String → Option (List (String × List String)))
    (L c0 : String) (err : Err) (x : Option Err) (c1 c2 : Option String)
    (ua : UpdateArtifact) (hne : c0 ≠ "")
    (hguard : ua.config.isLockFileMaintenance = true ∨ ua.updatedDeps ≠ []) :
    attemptStep e ⟨some L, some c0, some err, x, c1, c2⟩ ua =
      (classifyFailure e L c2 ua.updatedDeps err,
        ⟨[(ua.packageFileName, ua.newPackageFileContent)], []⟩) := by
  unfold attemptStep
  have hg : ¬(ua.config.isLockFileMaintenance = false ∧ ua.updatedDeps = []) := by
    rcases hguard with h | h <;> simp [h]
  simp [hne, hg]

theorem attemptStep_execFailed
    (e : String → Option (List (String × List String)))
    (L c0 : String) (err : Err) (c1 c2 : Option String)
    (ua : UpdateArtifact) (hne : c0 ≠ "")
    (hguard : ua.config.isLockFileMaintenance = true ∨ ua.updatedDeps ≠ []) :
    attemptStep e ⟨some L, some c0, none, some err, c1, c2⟩ ua =
      (classifyFailure e L c2 ua.updatedDeps err,
        ⟨[(ua.packageFileName, ua.newPackageFileContent)],
          [planCommands ua.packageFileName ua.updatedDeps
            ua.config.isLockFileMaintenance]⟩) := by
  unfold attemptStep
  have hg : ¬(ua.config.isLockFileMaintenance = false ∧ ua.updatedDeps = []) := by
    rcases hguard with h | h <;> simp [h]
  simp [hne, hg]

theorem attemptStep_execOk
    (e : String → Option (List (String × List String)))
    (L c0 : String) (c1 c2 : Option String)
    (ua : UpdateArtifact) (hne : c0 ≠ "")
    (hguard : ua.config.isLockFileMaintenance = true ∨ ua.updatedDeps ≠ []) :
    attemptStep e ⟨some L, some c0, none, none, c1, c2⟩ ua =
      ((if c1 = some c0 then .done .null else .done (.addition L c1)),
        ⟨[(ua.packageFileName, ua.newPackageFileContent)],
          [planCommands ua.packageFileName ua.updatedDeps
            ua.config.isLockFileMaintenance]⟩) := by
  unfold attemptStep
  have hg : ¬(ua.config.isLockFileMaintenance = false ∧ ua.updatedDeps = []) := by
    rcases hguard with h | h <;> simp [h]
  by_cases hc1 : c1 = some c0 <;> simp [hne, hg, hc1]

theorem impl_step_done {env : Env} {i : Nat} {ua : UpdateArtifact}
    {r : UpdateResult} {t : Trace} (n : Nat)
    (h : attemptStep env.extract (env.attempts i) ua = (.done r, t)) :
    updateArtifactsImpl env i ua n = (r, t) := by
  unfold updateArtifactsImpl
  cases n <;> simp only [updateArtifactsImplGo] <;> rw [h]

theorem impl_step_recurse {env : Env} {i : Nat} {ua : UpdateArtifact}
    {nd : List Upgrade} {L m : String} {t : Trace} (k : Nat)
    (h : attemptStep env.extract (env.attempts i) ua = (.recurse nd L m, t)) :
    updateArtifactsImpl env i ua (k + 1) =
      ((updateArtifactsImpl env (i + 1) { ua with updatedDeps := nd } k).1,
        t.append (updateArtifactsImpl env (i + 1) { ua with updatedDeps := nd } k).2) := by
  unfold updateArtifactsImpl
  simp only [updateArtifactsImplGo]
  rw [h]

theorem impl_step_exhausted {env : Env} {i : Nat} {ua : UpdateArtifact}
    {nd : List Upgrade} {L m : String} {t : Trace}
    (h : attemptStep env.extract (env.attempts i) ua = (.recurse nd L m, t)) :
    updateArtifactsImpl env i ua 0 = (.artifactError L m, t) := by
  unfold updateArtifactsImpl
  simp only [updateArtifactsImplGo]
  rw [h]

theorem attemptStep_execs_le
    (e : String → Option (List (String × List String))) (a : AttemptEnv)
    (ua : UpdateArtifact) : ((attemptStep e a ua).2.execs).length ≤ 1 := by
  obtain ⟨L, c0, w, x, c1, c2⟩ := a
  cases L <;> cases c0 <;> cases w <;> cases x <;> unfold attemptStep <;>
    (repeat' split) <;> first | decide | simp [Trace.empty]

theorem impl_execs_le (env : Env) : ∀ (n i : Nat) (ua : UpdateArtifact),
    ((updateArtifactsImpl env i ua n).2.execs).length ≤ n + 1 := by
  intro n
  induction n with
  | zero =>
    intro i ua
    have ht := attemptStep_execs_le env.extract (env.attempts i) ua
    rcases h : attemptStep env.extract (env.attempts i) ua with ⟨s, t⟩
    rw [h] at ht
    cases s with
    | done r => rw [impl_step_done 0 h]; simpa using ht
    | recurse nd L m => rw [impl_step_exhausted h]; simpa using ht
  | succ k ih =>
    intro i ua
    have ht := attemptStep_execs_le env.extract (env.attempts i) ua
    rcases h : attemptStep env.extract (env.attempts i) ua with ⟨s, t⟩
    rw [h] at ht
    cases s with
    | done r =>
      rw [impl_step_done (k + 1) h]
      dsimp only at ht ⊢
      omega
    | recurse nd L m =>
      rw [impl_step_recurse k h]
      have hr := ih (i + 1) { ua with updatedDeps := nd }
      rcases hu : updateArtifactsImpl env (i + 1) { ua with updatedDeps := nd } k
        with ⟨r2, t2⟩
      rw [hu] at hr
      dsimp only at ht hr ⊢
      simp [Trace.append]
      omega

/-- Claim C7: for every request whose manifest has no discoverable
`Cargo.lock` (no sibling-or-ancestor lock file, or its content is
unreadable), `updateArtifactsImpl` returns the "no actionable change"
result (`null`) immediately, without writing the manifest and without
invoking any external process (the effect trace is empty). -/
theorem c7_no_lock_file_short_circuit (env : Env) (i : Nat) (ua : UpdateArtifact)
    (n : Nat)
    (h : (env.attempts i).lockFileName = none ∨ (env.attempts i).lockContent0 = none) :
    updateArtifactsImpl env i ua n = (.null, Trace.empty) :=
  impl_step_done n (attemptStep_noLockFile env.extract (env.attempts i) ua h)

/-- Witness for C7 at a concrete environment with no lock file. -/
theorem c7_no_lock_file_short_circuit_witness :
    ((envC7.attempts 0).lockFileName = none ∨ (envC7.attempts 0).lockContent0 = none) ∧
    updateArtifactsImpl envC7 0 exUa 10 = (.null, Trace.empty) :=
  ⟨Or.inl rfl, c7_no_lock_file_short_circuit envC7 0 exUa 10 (Or.inl rfl)⟩

/-- Claim C6: when the resolver invocation succeeds and the lock file read
afterwards is byte-identical to the content read before, the call returns
`null` — never an artifact error and never a file addition.  The trace
shows the manifest write and the single planned invocation. -/
theorem c6_idempotence (env : Env) (i n : Nat) (ua : UpdateArtifact)
    (L c0 : String) (c2 : Option String)
    (hA : env.attempts i = ⟨some L, some c0, none, none, some c0, c2⟩)
    (hne : c0 ≠ "")
    (hguard : ua.config.isLockFileMaintenance = true ∨ ua.updatedDeps ≠ []) :
    updateArtifactsImpl env i ua n =
      (.null, ⟨[(ua.packageFileName, ua.newPackageFileContent)],
        [planCommands ua.packageFileName ua.updatedDeps
          ua.config.isLockFileMaintenance]⟩) := by
  apply impl_step_done n
  rw [hA, attemptStep_execOk env.extract L c0 (some c0) c2 ua hne hguard]
  simp

/-- Witness for C6 at a concrete environment with an unchanged lock file. -/
theorem c6_idempotence_witness :
    envC6.attempts 0 = ⟨some "Cargo.lock", some "lockv1", none, none, some "lockv1", none⟩ ∧
    "lockv1" ≠ "" ∧
    (exUa.config.isLockFileMaintenance = true ∨ exUa.updatedDeps ≠ []) ∧
    updateArtifactsImpl envC6 0 exUa 10 =
      (.null, ⟨[(exUa.packageFileName, exUa.newPackageFileContent)],
        [planCommands exUa.packageFileName exUa.updatedDeps
          exUa.config.isLockFileMaintenance]⟩) :=
  ⟨rfl, by decide, by decide,
    c6_idempotence envC6 0 10 exUa "Cargo.lock" "lockv1" none rfl (by decide) (by decide)⟩

/-- Claim C4: a failure (from the manifest write or from the resolver)
whose message equals the fatal sentinel `TEMPORARY_ERROR` is rethrown
unchanged, with no retry (at most the one failed invocation in the trace)
and no artifact error, regardless of the remaining budget and of the
stderr contents. -/
theorem c4_fatal_passthrough (env : Env) (i n : Nat) (ua : UpdateArtifact)
    (L c0 : String) (w x : Option Err) (err : Err) (c1 c2 : Option String)
    (hA : env.attempts i = ⟨some L, some c0, w, x, c1, c2⟩)
    (hne : c0 ≠ "")
    (hguard : ua.config.isLockFileMaintenance = true ∨ ua.updatedDeps ≠ [])
    (hfail : w = some err ∨ (w = none ∧ x = some err))
    (hmsg : err.message = TEMPORARY_ERROR) :
    (updateArtifactsImpl env i ua n).1 = .thrown err ∧
    ((updateArtifactsImpl env i ua n).2.execs).length ≤ 1 := by
  rcases hfail with hw | ⟨hw, hx⟩
  · subst hw
    have hs := attemptStep_writeFailed env.extract L c0 err x c1 c2 ua hne hguard
    rw [classifyFailure_fatal _ _ _ _ _ hmsg] at hs
    rw [impl_step_done n (by rw [hA]; exact hs)]
    exact ⟨rfl, by simp⟩
  · subst hw; subst hx
    have hs := attemptStep_execFailed env.extract L c0 err c1 c2 ua hne hguard
    rw [classifyFailure_fatal _ _ _ _ _ hmsg] at hs
    rw [impl_step_done n (by rw [hA]; exact hs)]
    exact ⟨rfl, by simp⟩

/-- Witness for C4 at a concrete environment whose resolver fails with the
sentinel message. -/
theorem c4_fatal_passthrough_witness :
    envC4.attempts 0 =
      ⟨some "Cargo.lock", some "lockv1", none, some exErrFatal, none, some "lockv1"⟩ ∧
    "lockv1" ≠ "" ∧
    (exUa.config.isLockFileMaintenance = true ∨ exUa.updatedDeps ≠ []) ∧
    (none = some exErrFatal ∨
      ((none : Option Err) = none ∧ some exErrFatal = some exErrFatal)) ∧
    exErrFatal.message = TEMPORARY_ERROR ∧
    ((updateArtifactsImpl envC4 0 exUa 7).1 = .thrown exErrFatal ∧
      ((updateArtifactsImpl envC4 0 exUa 7).2.execs).length ≤ 1) :=
  ⟨rfl, by decide, by decide, Or.inr ⟨rfl, rfl⟩, by decide,
    c4_fatal_passthrough envC4 0 7 exUa "Cargo.lock" "lockv1" none (some exErrFatal)
      exErrFatal none (some "lockv1") rfl (by decide) (by decide)
      (Or.inr ⟨rfl, rfl⟩) (by decide)⟩

/-- Claim C3: on a non-fatal execution failure, when the re-read lock file
is unreadable or empty, or the stderr does not match the "package ID
specification" signature, the call returns a terminal artifact error
carrying the lock file path and the failure message — it does not throw
and does not retry. -/
theorem c3_terminal_on_unrecoverable (env : Env) (i n : Nat) (ua : UpdateArtifact)
    (L c0 : String) (err : Err) (c1 c2 : Option String)
    (hA : env.attempts i = ⟨some L, some c0, none, some err, c1, c2⟩)
    (hne : c0 ≠ "")
    (hguard : ua.config.isLockFileMaintenance = true ∨ ua.updatedDeps ≠ [])
    (hmsg : err.message ≠ TEMPORARY_ERROR)
    (hno : c2 = none ∨ c2 = some "" ∨ hasPackageIdSig err.stderr = false) :
    updateArtifactsImpl env i ua n =
      (.artifactError L err.message,
        ⟨[(ua.packageFileName, ua.newPackageFileContent)],
          [planCommands ua.packageFileName ua.updatedDeps
            ua.config.isLockFileMaintenance]⟩) := by
  apply impl_step_done n
  rw [hA, attemptStep_execFailed env.extract L c0 err c1 c2 ua hne hguard,
    classifyFailure_terminal _ _ _ _ _ hmsg
      (recoveryDecision_not_applicable _ _ _ _ hno)]

/-- Witness for C3 at a concrete environment whose resolver failure does
not match the recovery signature. -/
theorem c3_terminal_on_unrecoverable_witness :
    envC3.attempts 0 =
      ⟨some "Cargo.lock", some "lockv1", none, some exErrPlain, none, some "lockv1"⟩ ∧
    "lockv1" ≠ "" ∧
    (exUa.config.isLockFileMaintenance = true ∨ exUa.updatedDeps ≠ []) ∧
    exErrPlain.message ≠ TEMPORARY_ERROR ∧
    (some "lockv1" = none ∨ some "lockv1" = some "" ∨
      hasPackageIdSig exErrPlain.stderr = false) ∧
    updateArtifactsImpl envC3 0 exUa 10 =
      (.artifactError "Cargo.lock" exErrPlain.message,
        ⟨[(exUa.packageFileName, exUa.newPackageFileContent)],
          [planCommands exUa.packageFileName exUa.updatedDeps
            exUa.config.isLockFileMaintenance]⟩) :=
  ⟨rfl, by decide, by decide, by decide, Or.inr (Or.inr (by decide)),
    c3_terminal_on_unrecoverable envC3 0 10 exUa "Cargo.lock" "lockv1" exErrPlain
      none (some "lockv1") rfl (by decide) (by decide) (by decide)
      (Or.inr (Or.inr (by decide)))⟩

/-- Claim C2: after a recoverable-conflict failure, recursion happens only
when the filtered upgrade set is strictly smaller than the previous one
and the budget is positive, with the budget decremented by one on the
recursive call; if the set did not shrink (or recovery does not apply),
the call terminates with an artifact error.  The filtered set is a strict
sub-list of the previous requested set. -/
theorem c2_recovery_narrows (env : Env) (i n : Nat) (ua : UpdateArtifact)
    (L c0 : String) (err : Err) (c1 c2 : Option String)
    (hA : env.attempts i = ⟨some L, some c0, none, some err, c1, c2⟩)
    (hne : c0 ≠ "")
    (hguard : ua.config.isLockFileMaintenance = true ∨ ua.updatedDeps ≠ [])
    (hmsg : err.message ≠ TEMPORARY_ERROR) :
    (∀ nd, recoveryDecision env.extract c2 ua.updatedDeps err = some nd →
      nd.length < ua.updatedDeps.length ∧ nd.Sublist ua.updatedDeps ∧
      (∀ k, updateArtifactsImpl env i ua (k + 1) =
        ((updateArtifactsImpl env (i + 1) { ua with updatedDeps := nd } k).1,
          Trace.append
            ⟨[(ua.packageFileName, ua.newPackageFileContent)],
              [planCommands ua.packageFileName ua.updatedDeps
                ua.config.isLockFileMaintenance]⟩
            (updateArtifactsImpl env (i + 1) { ua with updatedDeps := nd } k).2)) ∧
      (updateArtifactsImpl env i ua 0).1 = .artifactError L err.message) ∧
    (recoveryDecision env.extract c2 ua.updatedDeps err = none →
      (updateArtifactsImpl env i ua n).1 = .artifactError L err.message) := by
  constructor
  · intro nd hd
    obtain ⟨hlt, hsub⟩ := recoveryDecision_some_spec hd
    have hs : attemptStep env.extract (env.attempts i) ua =
        (.recurse nd L err.message,
          ⟨[(ua.packageFileName, ua.newPackageFileContent)],
            [planCommands ua.packageFileName ua.updatedDeps
              ua.config.isLockFileMaintenance]⟩) := by
      rw [hA, attemptStep_execFailed env.extract L c0 err c1 c2 ua hne hguard,
        classifyFailure_recoverable _ _ _ _ _ _ hmsg hd]
    refine ⟨hlt, hsub, fun k => impl_step_recurse k hs, ?_⟩
    rw [impl_step_exhausted hs]
  · intro hd
    have hs : attemptStep env.extract (env.attempts i) ua =
        (.done (.artifactError L err.message),
          ⟨[(ua.packageFileName, ua.newPackageFileContent)],
            [planCommands ua.packageFileName ua.updatedDeps
              ua.config.isLockFileMaintenance]⟩) := by
      rw [hA, attemptStep_execFailed env.extract L c0 err c1 c2 ua hne hguard,
        classifyFailure_terminal _ _ _ _ _ hmsg hd]
    rw [impl_step_done n hs]

/-- Witness for C2: the first attempt of `envC2` fails recoverably, the
filtered set drops `foo` (already locked at its target) and keeps `bar`. -/
theorem c2_recovery_narrows_witness :
    envC2.attempts 0 =
      ⟨some "Cargo.lock", some "lockv1", none, some exErrSig, none, some "lockv2"⟩ ∧
    "lockv1" ≠ "" ∧
    (exUa2.config.isLockFileMaintenance = true ∨ exUa2.updatedDeps ≠ []) ∧
    exErrSig.message ≠ TEMPORARY_ERROR ∧
    recoveryDecision envC2.extract (some "lockv2") exUa2.updatedDeps exErrSig =
      some [exDepBar] ∧
    [exDepBar].length < exUa2.updatedDeps.length ∧
    updateArtifactsImpl envC2 0 exUa2 10 =
      ((updateArtifactsImpl envC2 1 { exUa2 with updatedDeps := [exDepBar] } 9).1,
        Trace.append
          ⟨[(exUa2.packageFileName, exUa2.newPackageFileContent)],
            [planCommands exUa2.packageFileName exUa2.updatedDeps
              exUa2.config.isLockFileMaintenance]⟩
          (updateArtifactsImpl envC2 1 { exUa2 with updatedDeps := [exDepBar] } 9).2) := by
  refine ⟨rfl, by decide, by decide, by decide, by decide, by decide, ?_⟩
  exact ((c2_recovery_narrows envC2 0 10 exUa2 "Cargo.lock" "lockv1" exErrSig none
      (some "lockv2") rfl (by decide) (by decide) (by decide)).1
    [exDepBar] (by decide)).2.2.1 9

/-- Claim C1: reconciliation always terminates — across any environment the
trace never contains more resolver invocations than the budget allows
(at most `n + 1` for budget `n`, i.e. at most 10 retries after the initial
attempt for the default budget) — and under an adversarial resolver that
always fails with the recoverable signature while the lock file never
shrinks the requested set, the call returns a terminal artifact error. -/
theorem c1_budget_termination (env : Env) (i : Nat) (ua : UpdateArtifact)
    (L c0 s : String) (err : Err) (c1 : Option String)
    (hA : env.attempts i = ⟨some L, some c0, none, some err, c1, some s⟩)
    (hne : c0 ≠ "") (hs : s ≠ "")
    (hguard : ua.config.isLockFileMaintenance = true ∨ ua.updatedDeps ≠ [])
    (hmsg : err.message ≠ TEMPORARY_ERROR)
    (hsig : hasPackageIdSig err.stderr = true)
    (hnoshrink : (filterSatisfiedDeps (env.extract s) ua.updatedDeps).length
      = ua.updatedDeps.length) :
    (updateArtifactsImpl env i ua 10).1 = .artifactError L err.message ∧
    ((updateArtifactsImpl env i ua 10).2.execs).length ≤ 10 + 1 ∧
    (∀ (env' : Env) (n' i' : Nat) (ua' : UpdateArtifact),
      ((updateArtifactsImpl env' i' ua' n').2.execs).length ≤ n' + 1) := by
  have hdec := recoveryDecision_no_shrink env.extract s ua.updatedDeps err hs hsig
    hnoshrink
  have hstep : attemptStep env.extract (env.attempts i) ua =
      (.done (.artifactError L err.message),
        ⟨[(ua.packageFileName, ua.newPackageFileContent)],
          [planCommands ua.packageFileName ua.updatedDeps
            ua.config.isLockFileMaintenance]⟩) := by
    rw [hA, attemptStep_execFailed env.extract L c0 err c1 (some s) ua hne hguard,
      classifyFailure_terminal _ _ _ _ _ hmsg hdec]
  rw [impl_step_done 10 hstep]
  exact ⟨rfl, by simp, fun env' n' i' ua' => impl_execs_le env' n' i' ua'⟩

/-- Witness for C1 at the adversarial environment `envC1`. -/
theorem c1_budget_termination_witness :
    envC1.attempts 0 =
      ⟨some "Cargo.lock", some "lockv1", none, some exErrSig, none, some "lockv1"⟩ ∧
    "lockv1" ≠ "" ∧
    (exUa.config.isLockFileMaintenance = true ∨ exUa.updatedDeps ≠ []) ∧
    exErrSig.message ≠ TEMPORARY_ERROR ∧
    hasPackageIdSig exErrSig.stderr = true ∧
    (filterSatisfiedDeps (envC1.extract "lockv1") exUa.updatedDeps).length
      = exUa.updatedDeps.length ∧
    ((updateArtifactsImpl envC1 0 exUa 10).1 =
        .artifactError "Cargo.lock" exErrSig.message ∧
      ((updateArtifactsImpl envC1 0 exUa 10).2.execs).length ≤ 10 + 1 ∧
      (∀ (env' : Env) (n' i' : Nat) (ua' : UpdateArtifact),
        ((updateArtifactsImpl env' i' ua' n').2.execs).length ≤ n' + 1)) :=
  ⟨rfl, by decide, by decide, by decide, by decide, by decide,
    c1_budget_termination envC1 0 exUa "Cargo.lock" "lockv1" "lockv1" exErrSig none
      rfl (by decide) (by decide) (by decide) (by decide) (by decide) (by decide)⟩

/-- Claim C9: when a recoverable-conflict retry filters the requested set
down to empty, the recursive call (empty upgrade set, maintenance off)
short-circuits without invoking the resolver and returns the then-current
lock file content as an addition; the only resolver invocation in the
whole trace is the failed first one. -/
theorem c9_empty_filter_short_circuit (env : Env) (i k : Nat) (ua : UpdateArtifact)
    (L c0 s L2 c02 : String) (err : Err) (c1 : Option String)
    (w2 x2 : Option Err) (c12 c22 : Option String)
    (hA : env.attempts i = ⟨some L, some c0, none, some err, c1, some s⟩)
    (hA2 : env.attempts (i + 1) = ⟨some L2, some c02, w2, x2, c12, c22⟩)
    (hne : c0 ≠ "") (hs : s ≠ "") (hne2 : c02 ≠ "")
    (hm : ua.config.isLockFileMaintenance = false)
    (hd : ua.updatedDeps ≠ [])
    (hmsg : err.message ≠ TEMPORARY_ERROR)
    (hsig : hasPackageIdSig err.stderr = true)
    (hempty : filterSatisfiedDeps (env.extract s) ua.updatedDeps = []) :
    (updateArtifactsImpl env i ua (k + 1)).1 = .addition L2 (some c02) ∧
    (updateArtifactsImpl env i ua (k + 1)).2.execs =
      [planCommands ua.packageFileName ua.updatedDeps false] := by
  have hlt : (filterSatisfiedDeps (env.extract s) ua.updatedDeps).length <
      ua.updatedDeps.length := by
    rw [hempty]
    simpa using List.length_pos.mpr hd
  have hdec := recoveryDecision_shrink env.extract s ua.updatedDeps err hs hsig hlt
  rw [hempty] at hdec
  have hs1 : attemptStep env.extract (env.attempts i) ua =
      (.recurse [] L err.message,
        ⟨[(ua.packageFileName, ua.newPackageFileContent)],
          [planCommands ua.packageFileName ua.updatedDeps
            ua.config.isLockFileMaintenance]⟩) := by
    rw [hA, attemptStep_execFailed env.extract L c0 err c1 (some s) ua hne (Or.inr hd),
      classifyFailure_recoverable _ _ _ _ _ _ hmsg hdec]
  have hs2 : attemptStep env.extract (env.attempts (i + 1))
      { ua with updatedDeps := [] } =
      (.done (.addition L2 (some c02)), Trace.empty) := by
    rw [hA2]
    exact attemptStep_noDepsLeft env.extract L2 c02 w2 x2 c12 c22 _ hne2 hm rfl
  rw [impl_step_recurse k hs1, impl_step_done k hs2]
  refine ⟨rfl, ?_⟩
  simp [Trace.append, Trace.empty, hm]

/-- Witness for C9: the first attempt of `envC2` on the single-upgrade
request fails recoverably, the re-read lock file already satisfies `foo`,
the filtered set is empty, and the recursive call returns the updated lock
content. -/
theorem c9_empty_filter_short_circuit_witness :
    envC2.attempts 0 =
      ⟨some "Cargo.lock", some "lockv1", none, some exErrSig, none, some "lockv2"⟩ ∧
    envC2.attempts 1 =
      ⟨some "Cargo.lock", some "lockv2", none, none, some "lockv3", none⟩ ∧
    "lockv1" ≠ "" ∧ "lockv2" ≠ "" ∧
    exUa.config.isLockFileMaintenance = false ∧
    exUa.updatedDeps ≠ [] ∧
    exErrSig.message ≠ TEMPORARY_ERROR ∧
    hasPackageIdSig exErrSig.stderr = true ∧
    filterSatisfiedDeps (envC2.extract "lockv2") exUa.updatedDeps = [] ∧
    ((updateArtifactsImpl envC2 0 exUa 10).1 = .addition "Cargo.lock" (some "lockv2") ∧
      (updateArtifactsImpl envC2 0 exUa 10).2.execs =
        [planCommands exUa.packageFileName exUa.updatedDeps false]) :=
  ⟨rfl, rfl, by decide, by decide, by decide, by decide, by decide, by decide, by decide,
    c9_empty_filter_short_circuit envC2 0 9 exUa "Cargo.lock" "lockv1" "lockv2"
      "Cargo.lock" "lockv2" exErrSig none none none (some "lockv3") none rfl rfl
      (by decide) (by decide) (by decide) (by decide) (by decide) (by decide)
      (by decide) (by decide)⟩

/-- Counterexample to C8 as stated: in `envC8` the manifest write fails
with a plain I/O error ("write failed"), yet `updateArtifactsImpl` does
not throw — it returns an artifact-error result, because the write happens
inside the same try block as the resolver invocation. -/
theorem c8_counterexample :
    (updateArtifactsImpl envC8 0 exUa 10).1 =
      .artifactError "Cargo.lock" "write failed" ∧
    ∀ e, (updateArtifactsImpl envC8 0 exUa 10).1 ≠ .thrown e := by
  refine ⟨by decide, ?_⟩
  intro e h
  rw [show (updateArtifactsImpl envC8 0 exUa 10).1 =
      .artifactError "Cargo.lock" "write failed" by decide] at h
  exact UpdateResult.noConfusion h

/-- Claim C8 as amended: a manifest-write failure is caught by the same
handler as resolver failures — it is rethrown only when its message equals
the fatal sentinel; otherwise, when recovery does not apply, it is
converted into an artifact error carrying the lock file path and the
failure message (with no resolver invocation in the trace), not
propagated. -/
theorem c8_amended_write_failure_caught (env : Env) (i n : Nat) (ua : UpdateArtifact)
    (L c0 : String) (err : Err) (x : Option Err) (c1 c2 : Option String)
    (hA : env.attempts i = ⟨some L, some c0, some err, x, c1, c2⟩)
    (hne : c0 ≠ "")
    (hguard : ua.config.isLockFileMaintenance = true ∨ ua.updatedDeps ≠ []) :
    (err.message = TEMPORARY_ERROR →
      updateArtifactsImpl env i ua n =
        (.thrown err, ⟨[(ua.packageFileName, ua.newPackageFileContent)], []⟩)) ∧
    (err.message ≠ TEMPORARY_ERROR →
      recoveryDecision env.extract c2 ua.updatedDeps err = none →
      updateArtifactsImpl env i ua n =
        (.artifactError L err.message,
          ⟨[(ua.packageFileName, ua.newPackageFileContent)], []⟩)) := by
  constructor
  · intro hmsg
    apply impl_step_done n
    rw [hA, attemptStep_writeFailed env.extract L c0 err x c1 c2 ua hne hguard,
      classifyFailure_fatal _ _ _ _ _ hmsg]
  · intro hmsg hdec
    apply impl_step_done n
    rw [hA, attemptStep_writeFailed env.extract L c0 err x c1 c2 ua hne hguard,
      classifyFailure_terminal _ _ _ _ _ hmsg hdec]

/-- Witness for the amended C8 at the concrete write-failure environment. -/
theorem c8_amended_write_failure_caught_witness :
    envC8.attempts 0 =
      ⟨some "Cargo.lock", some "lockv1", some exErrWrite, none, none, none⟩ ∧
    "lockv1" ≠ "" ∧
    (exUa.config.isLockFileMaintenance = true ∨ exUa.updatedDeps ≠ []) ∧
    exErrWrite.message ≠ TEMPORARY_ERROR ∧
    recoveryDecision envC8.extract none exUa.updatedDeps exErrWrite = none ∧
    updateArtifactsImpl envC8 0 exUa 10 =
      (.artifactError "Cargo.lock" exErrWrite.message,
        ⟨[(exUa.packageFileName, exUa.newPackageFileContent)], []⟩) :=
  ⟨rfl, by decide, by decide, by decide, by decide,
    (c8_amended_write_failure_caught envC8 0 10 exUa "Cargo.lock" "lockv1" exErrWrite
      none none none rfl (by decide) (by decide)).2 (by decide) (by decide)⟩

/-- Claim C10: during conflict recovery, an upgrade whose package
coordinate is absent from the extracted versions is always kept (a missing
entry behaves as an empty version list); an upgrade that was in the
requested set is dropped exactly when its target version appears among the
versions extracted for its package. -/
theorem c10_filter_absent_kept (versions : Option (List (String × List String)))
    (deps : List Upgrade) (dep : Upgrade) (h : dep ∈ deps) :
    (mapGet versions dep.packageName = none →
      dep ∈ filterSatisfiedDeps versions deps) ∧
    (dep ∈ filterSatisfiedDeps versions deps ↔
      includesOpt (coerceArray (mapGet versions dep.packageName)) dep.newVersion
        = false) := by
  have hmem : dep ∈ filterSatisfiedDeps versions deps ↔
      includesOpt (coerceArray (mapGet versions dep.packageName)) dep.newVersion
        = false := by
    unfold filterSatisfiedDeps
    rw [List.mem_filter]
    simp [h]
  refine ⟨fun hnone => ?_, hmem⟩
  rw [hmem, hnone]
  cases hv : dep.newVersion <;> rfl

/-- Witness for C10: a package missing from the extraction is kept. -/
theorem c10_filter_absent_kept_witness :
    exDepBar ∈ [exDep, exDepBar] ∧
    (mapGet (some [("foo", ["1.1.0"])]) exDepBar.packageName = none →
      exDepBar ∈ filterSatisfiedDeps (some [("foo", ["1.1.0"])]) [exDep, exDepBar]) ∧
    (exDepBar ∈ filterSatisfiedDeps (some [("foo", ["1.1.0"])]) [exDep, exDepBar] ↔
      includesOpt (coerceArray (mapGet (some [("foo", ["1.1.0"])]) exDepBar.packageName))
        exDepBar.newVersion = false) :=
  ⟨by decide,
    (c10_filter_absent_kept (some [("foo", ["1.1.0"])]) [exDep, exDepBar] exDepBar
      (by decide)).1,
    (c10_filter_absent_kept (some [("foo", ["1.1.0"])]) [exDep, exDepBar] exDepBar
      (by decide)).2⟩

/-- Claim C5: strategy selection — a maintenance-mode request plans a
single full-workspace update and no precise-pin command; a targeted
request plans a single full-workspace update when some upgrade is
non-crate or lacks a (truthy) locked version, and otherwise exactly one
full-workspace update plus one precise-pin command per upgrade, in request
order. -/
theorem c5_strategy_selection (p : String) (deps : List Upgrade) :
    planCommands p deps true = [cargoUpdateCmd p true] ∧
    (∀ d, cargoPreciseDepCmd p d ∉ planCommands p deps true) ∧
    planCommands p deps false =
      (if deps.any (fun d => isNonCrateDep d || isCrateDepWithoutLockedVersion d)
        then [cargoUpdateCmd p false]
        else cargoUpdateCmd p false :: deps.map (cargoPreciseDepCmd p)) := by
  have hmaint : planCommands p deps true = [cargoUpdateCmd p true] := by
    unfold planCommands
    simp
  refine ⟨hmaint, ?_, ?_⟩
  · intro d hd
    rw [hmaint, List.mem_singleton] at hd
    have hlen := congrArg String.length hd
    have h1 : (" --package ").length = 11 := by decide
    have h2 : (" --precise ").length = 11 := by decide
    simp [cargoPreciseDepCmd, cargoUpdateCmd, String.length_append, h1, h2] at hlen
    omega
  · have key : ((deps.find? isNonCrateDep).isSome ||
        (deps.find? isCrateDepWithoutLockedVersion).isSome) =
        deps.any (fun d => isNonCrateDep d || isCrateDepWithoutLockedVersion d) := by
      rcases hfind : deps.any (fun d => isNonCrateDep d || isCrateDepWithoutLockedVersion d)
        with _ | _
      · rw [Bool.or_eq_false_iff]
        rw [List.any_eq_false] at hfind
        constructor
        · rw [Bool.eq_false_iff]
          intro hsome
          rw [List.find?_isSome] at hsome
          obtain ⟨x, hx, hpx⟩ := hsome
          have := hfind x hx
          simp [hpx] at this
        · rw [Bool.eq_false_iff]
          intro hsome
          rw [List.find?_isSome] at hsome
          obtain ⟨x, hx, hpx⟩ := hsome
          have := hfind x hx
          simp [hpx] at this
      · rw [List.any_eq_true] at hfind
        obtain ⟨x, hx, hpx⟩ := hfind
        rw [Bool.or_eq_true] at hpx
        rw [Bool.or_eq_true]
        rcases hpx with hpx | hpx
        · exact Or.inl (by rw [List.find?_isSome]; exact ⟨x, hx, hpx⟩)
        · exact Or.inr (by rw [List.find?_isSome]; exact ⟨x, hx, hpx⟩)
    unfold planCommands
    rw [key]
    rcases hany : deps.any (fun d => isNonCrateDep d || isCrateDepWithoutLockedVersion d)
      with _ | _
    · simp [cargoUpdatePreciseCmds, cargoUpdateCmd]
    · simp

end CargoArtifacts

